import Mathlib

/-
  Verification of the orbital-geometry and theory-compatibility calculator
  of src/venus.py, a Streamlit script that computes the phase geometry of
  Venus for an adjustable observer orbit.

  The numeric computations of the script are embedded over the real
  numbers.  The script performs unguarded numpy float divisions; where a
  division by zero would make numpy produce NaN or +inf, the embedding
  records that outcome explicitly with the FVal type below, and every such
  branch is annotated with the numpy behaviour it mirrors.  The script
  never raises an exception in its numeric code: numpy division of a
  nonzero float by zero yields inf, zero by zero yields NaN, and NaN
  propagates through clip, arccos, cos and log10, all with only a runtime
  warning.
-/

/-- Result of one floating-point quantity computed by the script: an
ordinary finite real value, positive infinity, or NaN. -/
inductive FVal where
  | fin : ℝ → FVal
  | pinf : FVal
  | nan : FVal

/-- Embedding of np.clip x lo hi. -/
noncomputable def clip (x lo hi : ℝ) : ℝ := min (max x lo) hi

/-- Embedding of np.radians: degrees to radians. -/
noncomputable def radians (deg : ℝ) : ℝ := deg * Real.pi / 180

/-- Embedding of np.degrees: radians to degrees. -/
noncomputable def degrees (rad : ℝ) : ℝ := rad * 180 / Real.pi

/-- np.degrees lifted to FVal: NaN maps to NaN and +inf to +inf. -/
noncomputable def FVal.degreesF : FVal → FVal
  | .fin v => .fin (degrees v)
  | .pinf => .pinf
  | .nan => .nan

/-- Python float comparison x > c lifted to FVal: NaN > c is False and
+inf > c is True. -/
noncomputable def FVal.gtF : FVal → ℝ → Bool
  | .fin v, c => if c < v then true else false
  | .pinf, _ => true
  | .nan, _ => false

/-- A body on a circular orbit centered at the star (the origin): the
slider radius in AU and the slider angle in degrees. -/
structure OrbitPosition where
  radius : ℝ
  angle_degrees : ℝ

/-- The fixed Venus orbital radius of the script: venus_radius = 0.72. -/
noncomputable def venus_radius : ℝ := 0.72

/-- Embedding of calculate_positions: polar to Cartesian conversion of
the observer and Venus positions.  The script reads the slider values
from globals; the embedding passes them as arguments. -/
noncomputable def calculate_positions (observer venus : OrbitPosition) : ℝ × ℝ × ℝ × ℝ :=
  (observer.radius * Real.cos (radians observer.angle_degrees),
   observer.radius * Real.sin (radians observer.angle_degrees),
   venus.radius * Real.cos (radians venus.angle_degrees),
   venus.radius * Real.sin (radians venus.angle_degrees))

/-- The record returned by calculate_venus_parameters, in the order of the
dict of the source.  The two distances are always finite; every other
field can be NaN or (for the magnitude) +inf on degenerate inputs. -/
structure VenusParams where
  phase_angle : FVal
  illuminated_fraction : FVal
  angular_diameter : FVal
  elongation : FVal
  distance_observer_venus : ℝ
  distance_sun_venus : ℝ
  apparent_magnitude : FVal

/-- The illuminated-fraction formula of the source: (1 + cos phase) / 2. -/
noncomputable def illuminated_fraction_of (phase : ℝ) : ℝ := (1 + Real.cos phase) / 2

/-- Embedding of calculate_venus_parameters.  Each quantity is the exact
real-number value of the corresponding numpy expression; the branches
record where numpy would produce NaN (division of a vector by a zero
norm, propagated through clip and arccos) or +inf (nonzero / zero,
propagated through arctan and log10). -/
noncomputable def calculate_venus_parameters
    (observer_x observer_y venus_x venus_y : ℝ) : VenusParams :=
  let distance_observer_venus :=
    Real.sqrt ((observer_x - venus_x) ^ 2 + (observer_y - venus_y) ^ 2)
  let distance_sun_venus := Real.sqrt (venus_x ^ 2 + venus_y ^ 2)
  let distance_sun_observer := Real.sqrt (observer_x ^ 2 + observer_y ^ 2)
  -- sun_venus_unit = (venus_x, venus_y) / distance_sun_venus
  -- venus_observer_unit = (observer - venus) / distance_observer_venus
  -- dot_product = np.dot(-sun_venus_unit, venus_observer_unit)
  let dot_product :=
    -(venus_x / distance_sun_venus) * ((observer_x - venus_x) / distance_observer_venus)
      + -(venus_y / distance_sun_venus) * ((observer_y - venus_y) / distance_observer_venus)
  let phase_angle := Real.arccos (clip dot_product (-1) 1)
  let illuminated_fraction := illuminated_fraction_of phase_angle
  -- observer_venus_unit = -venus_observer_unit
  -- elongation_cos = np.dot(sun_observer_unit, observer_venus_unit)
  let elongation_cos :=
    (observer_x / distance_sun_observer) * ((venus_x - observer_x) / distance_observer_venus)
      + (observer_y / distance_sun_observer) * ((venus_y - observer_y) / distance_observer_venus)
  let elongation := Real.arccos (clip elongation_cos (-1) 1)
  { phase_angle :=
      -- NaN exactly when a unit vector entering dot_product divides by a zero norm
      if distance_sun_venus = 0 ∨ distance_observer_venus = 0 then .nan
      else .fin phase_angle
    illuminated_fraction :=
      if distance_sun_venus = 0 ∨ distance_observer_venus = 0 then .nan
      else .fin illuminated_fraction
    angular_diameter :=
      -- 2 * np.arctan(0.006051 / d): numpy yields 0.006051 / 0 = inf and
      -- arctan inf = pi / 2, hence the value pi at zero distance
      if distance_observer_venus = 0 then .fin Real.pi
      else .fin (2 * Real.arctan (0.006051 / distance_observer_venus))
    elongation :=
      if distance_sun_observer = 0 ∨ distance_observer_venus = 0 then .nan
      else .fin elongation
    distance_observer_venus := distance_observer_venus
    distance_sun_venus := distance_sun_venus
    apparent_magnitude :=
      -- -4.0 + 2.5 * np.log10(d ^ 2 / illuminated_fraction): NaN propagates
      -- from a NaN illuminated fraction; d ^ 2 / 0 = inf for d > 0 and
      -- log10 inf = inf
      if distance_sun_venus = 0 ∨ distance_observer_venus = 0 then .nan
      else if illuminated_fraction = 0 then .pinf
      else .fin (-4.0 + 2.5 * Real.logb 10 (distance_observer_venus ^ 2 / illuminated_fraction)) }

/-- The verdict returned by analyze_theory_compatibility. -/
structure TheoryVerdict where
  heliocentric_compatible : Bool
  heliocentric_explanation : String
  geocentric_compatible : Bool
  geocentric_explanation : String

/-- Embedding of analyze_theory_compatibility.  The script reads the fixed
venus_radius global; the embedding passes it as the venus_radius argument
so the rule table can be stated for any planet radius.  The comparison
phase_deg > 90 is the Python float comparison, so a NaN phase angle falls
into the else branches. -/
noncomputable def analyze_theory_compatibility (params : VenusParams)
    (observer_radius : ℝ) (venus_radius : ℝ) : TheoryVerdict :=
  let phase_deg := FVal.degreesF params.phase_angle
  let _elongation_deg := FVal.degreesF params.elongation
  let geo : Bool × String :=
    if observer_radius < venus_radius then
      if FVal.gtF phase_deg 90 then
        (true, "관측자가 금성보다 안쪽에서 태양 주위 공전 → 천동설적 설명 가능")
      else
        (false, "초승달 위상만 관측 → 천동설 예측과 일치하지만 우연의 일치")
    else if observer_radius > venus_radius then
      if FVal.gtF phase_deg 90 then
        (false, "천동설로는 설명 불가 → 금성이 태양 너머에 있어야 함")
      else
        (false, "초승달만 관측 → 천동설 예측과 일치")
    else
      (false, "특수 조건: 금성과 같은 궤도")
  { heliocentric_compatible := true
    heliocentric_explanation := "금성이 태양 주위를 공전하므로 모든 위상 관측 가능"
    geocentric_compatible := geo.1
    geocentric_explanation := geo.2 }

/-- Application of calculate_venus_parameters to a positions tuple, the
composition the script performs right after calculate_positions. -/
noncomputable def venusParamsOfPositions (p : ℝ × ℝ × ℝ × ℝ) : VenusParams :=
  calculate_venus_parameters p.1 p.2.1 p.2.2.1 p.2.2.2

/-- One entry of the session experiment log: the values underlying the
formatted strings the script stores on the record button. -/
structure Snapshot where
  orbit_radius : ℝ
  phase : FVal
  illuminated : FVal
  geocentric_ok : Bool
  heliocentric_ok : Bool

/-- One full recomputation of the script for given slider inputs together
with the session-state experiment log: the calculation calls of the
script followed by its record and reset button handlers.  The log is the
only mutable state the script keeps across interactions. -/
noncomputable def script_step (observer_radius observer_angle venus_angle : ℝ)
    (record_pressed reset_pressed : Bool) (log : List Snapshot) :
    VenusParams × TheoryVerdict × List Snapshot :=
  let pos := calculate_positions ⟨observer_radius, observer_angle⟩ ⟨venus_radius, venus_angle⟩
  let params := venusParamsOfPositions pos
  let verdict := analyze_theory_compatibility params observer_radius venus_radius
  let log1 :=
    if record_pressed then
      log ++ [⟨observer_radius, params.phase_angle, params.illuminated_fraction,
              verdict.geocentric_compatible, verdict.heliocentric_compatible⟩]
    else log
  let log2 := if reset_pressed then [] else log1
  (params, verdict, log2)

/-- Modelled from the spec: the angular separation between the star and
the planet as seen from the observer, i.e. the angle between the unit
vector from the observer toward the star and the unit vector from the
observer toward the planet.  The spec and the source comment describe the
elongation as this quantity; it is defined here independently of the
source so the elongation the source computes can be compared with it. -/
noncomputable def spec_angular_separation
    (observer_x observer_y venus_x venus_y : ℝ) : ℝ :=
  Real.arccos (clip
    ((-observer_x / Real.sqrt (observer_x ^ 2 + observer_y ^ 2))
        * ((venus_x - observer_x) /
            Real.sqrt ((venus_x - observer_x) ^ 2 + (venus_y - observer_y) ^ 2))
      + (-observer_y / Real.sqrt (observer_x ^ 2 + observer_y ^ 2))
        * ((venus_y - observer_y) /
            Real.sqrt ((venus_x - observer_x) ^ 2 + (venus_y - observer_y) ^ 2)))
    (-1) 1)

/-- A Euclidean norm vanishes exactly when both components vanish. -/
lemma sqrt_sq_add_sq_eq_zero_iff (a b : ℝ) :
    Real.sqrt (a ^ 2 + b ^ 2) = 0 ↔ a = 0 ∧ b = 0 := by
  rw [Real.sqrt_eq_zero']
  constructor
  · intro h
    constructor <;> nlinarith [sq_nonneg a, sq_nonneg b]
  · rintro ⟨ha, hb⟩
    simp [ha, hb]

/-- The clip to [-1, 1] stays at or above -1. -/
lemma neg_one_le_clip (x : ℝ) : -1 ≤ clip x (-1) 1 :=
  le_min (le_max_right x (-1)) (by norm_num)

/-- The clip to [-1, 1] stays at or below 1. -/
lemma clip_le_one (x : ℝ) : clip x (-1) 1 ≤ 1 := min_le_right _ _

/-- Clipping to [-1, 1] commutes with negation. -/
lemma clip_neg_neg_one_one (x : ℝ) : clip (-x) (-1) 1 = -clip x (-1) 1 := by
  unfold clip
  rcases le_total x (-1) with h | h <;> rcases le_total x 1 with h2 | h2 <;>
    rcases le_total (-x) (-1) with h3 | h3 <;> rcases le_total (-x) 1 with h4 | h4 <;>
      simp [max_def, min_def] <;> split_ifs <;> linarith

/-- C9: the calculator is deterministic and stateless: the parameter record
and the verdict produced by one full script step do not depend on the
record or reset flags or on the incoming experiment log, and both are the
stated pure function of the slider inputs and the fixed Venus orbital
radius constant alone. -/
theorem calculator_stateless (orad oang vang : ℝ) (r1 s1 r2 s2 : Bool)
    (log1 log2 : List Snapshot) :
    (script_step orad oang vang r1 s1 log1).1 = (script_step orad oang vang r2 s2 log2).1
    ∧ (script_step orad oang vang r1 s1 log1).2.1
        = (script_step orad oang vang r2 s2 log2).2.1
    ∧ (script_step orad oang vang r1 s1 log1).1
        = venusParamsOfPositions (calculate_positions ⟨orad, oang⟩ ⟨venus_radius, vang⟩)
    ∧ (script_step orad oang vang r1 s1 log1).2.1
        = analyze_theory_compatibility
            (venusParamsOfPositions (calculate_positions ⟨orad, oang⟩ ⟨venus_radius, vang⟩))
            orad venus_radius :=
  ⟨rfl, rfl, rfl, rfl⟩

/-- C1: analyze_theory_compatibility implements the rule table of the
spec: heliocentric_compatible is unconditionally true;
geocentric_compatible is true exactly when observer_radius is strictly
below the planet radius and the phase angle converted to degrees strictly
exceeds 90; for a finite phase angle that comparison is exactly
90 < degrees theta, so the boundary at exactly 90 degrees yields false;
and at equal radii geocentric_compatible is false for every phase
angle. -/
theorem theory_compatibility_rule_table (params : VenusParams)
    (observer_radius planet_radius θ : ℝ) :
    (analyze_theory_compatibility params observer_radius planet_radius).heliocentric_compatible
        = true
    ∧ ((analyze_theory_compatibility params observer_radius planet_radius).geocentric_compatible
          = true
        ↔ observer_radius < planet_radius
            ∧ FVal.gtF (FVal.degreesF params.phase_angle) 90 = true)
    ∧ (FVal.gtF (FVal.degreesF (FVal.fin θ)) 90 = true ↔ 90 < degrees θ)
    ∧ (analyze_theory_compatibility params planet_radius planet_radius).geocentric_compatible
        = false := by
  refine ⟨rfl, ?_, ?_, ?_⟩
  · unfold analyze_theory_compatibility
    by_cases h1 : observer_radius < planet_radius <;>
      by_cases h2 : observer_radius > planet_radius <;>
        cases hb : FVal.gtF (FVal.degreesF params.phase_angle) 90 <;>
          simp [h1, h2, hb]
  · simp only [FVal.degreesF, FVal.gtF]
    split_ifs with h <;> simp [h]
  · unfold analyze_theory_compatibility
    cases hb : FVal.gtF (FVal.degreesF params.phase_angle) 90 <;>
      simp [lt_irrefl, hb]

/-- C2 counterexample: with observer and planet at identical radius and
angle (the concrete Cartesian position (0.72, 0) for both), the source
raises nothing: calculate_venus_parameters returns an ordinary record in
which phase angle, illuminated fraction, elongation and apparent
magnitude are the silent NaN of the numpy division by the zero norm, the
angular diameter is pi, and the observer-planet distance is 0. -/
theorem coincident_positions_return_nan :
    calculate_venus_parameters 0.72 0 0.72 0 =
      { phase_angle := FVal.nan, illuminated_fraction := FVal.nan,
        angular_diameter := FVal.fin Real.pi, elongation := FVal.nan,
        distance_observer_venus := 0, distance_sun_venus := 0.72,
        apparent_magnitude := FVal.nan } := by
  have h1 : ((0.72 : ℝ) - 0.72) ^ 2 + ((0 : ℝ) - 0) ^ 2 = 0 := by norm_num
  have h2 : Real.sqrt ((0.72 : ℝ) ^ 2) = 0.72 := Real.sqrt_sq (by norm_num)
  simp [calculate_venus_parameters, h1, h2, Real.sqrt_zero]

/-- C2 amended: the source guards nothing.  Coincident observer and
planet positions make phase angle, illuminated fraction, elongation and
apparent magnitude NaN (the observer-planet distance is 0 and the unit
vectors divide by it) while the angular diameter evaluates to pi; a
planet at the origin likewise yields NaN phase and magnitude, and an
observer at the origin yields NaN elongation.  No error is raised in any
of these cases. -/
theorem degenerate_positions_unguarded (ox oy vx vy : ℝ) :
    (calculate_venus_parameters ox oy ox oy).phase_angle = FVal.nan
    ∧ (calculate_venus_parameters ox oy ox oy).illuminated_fraction = FVal.nan
    ∧ (calculate_venus_parameters ox oy ox oy).elongation = FVal.nan
    ∧ (calculate_venus_parameters ox oy ox oy).apparent_magnitude = FVal.nan
    ∧ (calculate_venus_parameters ox oy ox oy).angular_diameter = FVal.fin Real.pi
    ∧ (calculate_venus_parameters ox oy ox oy).distance_observer_venus = 0
    ∧ (calculate_venus_parameters ox oy 0 0).phase_angle = FVal.nan
    ∧ (calculate_venus_parameters ox oy 0 0).apparent_magnitude = FVal.nan
    ∧ (calculate_venus_parameters 0 0 vx vy).elongation = FVal.nan := by
  have h1 : (ox - ox) ^ 2 + (oy - oy) ^ 2 = 0 := by ring
  have h2 : ((0 : ℝ) ^ 2 + (0 : ℝ) ^ 2) = 0 := by norm_num
  refine ⟨?_, ?_, ?_, ?_, ?_, ?_, ?_, ?_, ?_⟩ <;>
    simp [calculate_venus_parameters, h1, h2, Real.sqrt_zero]

/-- A negative observer radius flows through the whole parameter
computation and produces ordinary finite values, never NaN: evaluation at
the observer position (-1, 0), reachable from radius -1 and angle 0. -/
lemma neg_radius_params_not_nan :
    (calculate_venus_parameters (-1) 0 0 0.72).phase_angle ≠ FVal.nan
    ∧ (calculate_venus_parameters (-1) 0 0 0.72).elongation ≠ FVal.nan
    ∧ (calculate_venus_parameters (-1) 0 0 0.72).apparent_magnitude ≠ FVal.nan := by
  have h1 : Real.sqrt ((0.72 : ℝ) ^ 2) ≠ 0 := by
    rw [Real.sqrt_sq (by norm_num : (0 : ℝ) ≤ 0.72)]; norm_num
  have h2 : Real.sqrt (1 + (0.72 : ℝ) ^ 2) ≠ 0 :=
    (Real.sqrt_pos.mpr (by norm_num)).ne'
  refine ⟨?_, ?_, ?_⟩
  · simp [calculate_venus_parameters, h1, h2]
  · simp [calculate_venus_parameters, h1, h2]
  · simp [calculate_venus_parameters, h1, h2]
    split_ifs <;> simp

/-- C4 counterexample: the calculator performs no radius validation.  With
observer radius -1 (a non-positive radius) calculate_positions returns
the ordinary Cartesian point (-1, 0) and the downstream parameter
computation succeeds with non-NaN values; no InvalidInputError exists
anywhere in the source. -/
theorem negative_radius_accepted :
    calculate_positions ⟨-1, 0⟩ ⟨0.72, 90⟩ = (-1, 0, 0, 0.72)
    ∧ (calculate_venus_parameters (-1) 0 0 0.72).phase_angle ≠ FVal.nan
    ∧ (calculate_venus_parameters (-1) 0 0 0.72).apparent_magnitude ≠ FVal.nan := by
  refine ⟨?_, neg_radius_params_not_nan.1, neg_radius_params_not_nan.2.2⟩
  have hr0 : radians 0 = 0 := by simp [radians]
  have hr90 : radians 90 = Real.pi / 2 := by unfold radians; ring
  simp [calculate_positions, hr0, hr90, Real.cos_pi_div_two, Real.sin_pi_div_two]

/-- C4 amended: the calculator validates nothing: for every radius,
including non-positive ones, calculate_positions is the plain polar to
Cartesian conversion with no error path, and the concrete negative-radius
observer position (-1, 0) flows through calculate_venus_parameters to
ordinary non-NaN results.  Input clamping exists only in the presentation
layer slider bounds. -/
theorem no_radius_validation (r θ rv θv : ℝ) :
    calculate_positions ⟨r, θ⟩ ⟨rv, θv⟩
      = (r * Real.cos (radians θ), r * Real.sin (radians θ),
         rv * Real.cos (radians θv), rv * Real.sin (radians θv))
    ∧ (calculate_venus_parameters (-1) 0 0 0.72).phase_angle ≠ FVal.nan
    ∧ (calculate_venus_parameters (-1) 0 0 0.72).elongation ≠ FVal.nan
    ∧ (calculate_venus_parameters (-1) 0 0 0.72).apparent_magnitude ≠ FVal.nan :=
  ⟨rfl, neg_radius_params_not_nan.1, neg_radius_params_not_nan.2.1,
    neg_radius_params_not_nan.2.2⟩

/-- The sun-planet norm is nonzero when the planet is away from the origin. -/
lemma dsv_ne_zero (vx vy : ℝ) (h : ¬(vx = 0 ∧ vy = 0)) :
    Real.sqrt (vx ^ 2 + vy ^ 2) ≠ 0 := by
  rw [Ne, sqrt_sq_add_sq_eq_zero_iff]; exact h

/-- The observer-planet norm is nonzero when the two bodies differ. -/
lemma dov_ne_zero (ox oy vx vy : ℝ) (h : ¬(ox = vx ∧ oy = vy)) :
    Real.sqrt ((ox - vx) ^ 2 + (oy - vy) ^ 2) ≠ 0 := by
  rw [Ne, sqrt_sq_add_sq_eq_zero_iff]
  rintro ⟨ha, hb⟩
  exact h ⟨by linarith, by linarith⟩

/-- The sun-observer norm is nonzero when the observer is away from the
origin. -/
lemma dso_ne_zero (ox oy : ℝ) (h : ¬(ox = 0 ∧ oy = 0)) :
    Real.sqrt (ox ^ 2 + oy ^ 2) ≠ 0 := by
  rw [Ne, sqrt_sq_add_sq_eq_zero_iff]; exact h

/-- C3: for every non-degenerate input the phase angle is a finite value
in [0, pi], the illuminated fraction is exactly the value of the formula
(1 + cos phase) / 2 at that phase angle and lies in [0, 1]; the formula
itself is 1 at phase 0, 0 at phase pi, and strictly decreasing on
[0, pi]. -/
theorem phase_and_illumination_bounds (ox oy vx vy : ℝ)
    (hsv : ¬(vx = 0 ∧ vy = 0)) (hov : ¬(ox = vx ∧ oy = vy)) :
    (∃ θ, (calculate_venus_parameters ox oy vx vy).phase_angle = FVal.fin θ
      ∧ 0 ≤ θ ∧ θ ≤ Real.pi
      ∧ (calculate_venus_parameters ox oy vx vy).illuminated_fraction
          = FVal.fin (illuminated_fraction_of θ)
      ∧ 0 ≤ illuminated_fraction_of θ ∧ illuminated_fraction_of θ ≤ 1)
    ∧ illuminated_fraction_of 0 = 1
    ∧ illuminated_fraction_of Real.pi = 0
    ∧ StrictAntiOn illuminated_fraction_of (Set.Icc 0 Real.pi) := by
  have h1 := dsv_ne_zero vx vy hsv
  have h2 := dov_ne_zero ox oy vx vy hov
  refine ⟨?_, ?_, ?_, ?_⟩
  · refine ⟨Real.arccos (clip
      (-(vx / Real.sqrt (vx ^ 2 + vy ^ 2))
          * ((ox - vx) / Real.sqrt ((ox - vx) ^ 2 + (oy - vy) ^ 2))
        + -(vy / Real.sqrt (vx ^ 2 + vy ^ 2))
          * ((oy - vy) / Real.sqrt ((ox - vx) ^ 2 + (oy - vy) ^ 2))) (-1) 1),
      ?_, Real.arccos_nonneg _, Real.arccos_le_pi _, ?_, ?_, ?_⟩
    · simp [calculate_venus_parameters, h1, h2]
    · simp [calculate_venus_parameters, h1, h2]
    · unfold illuminated_fraction_of
      have := Real.neg_one_le_cos (Real.arccos (clip
        (-(vx / Real.sqrt (vx ^ 2 + vy ^ 2))
            * ((ox - vx) / Real.sqrt ((ox - vx) ^ 2 + (oy - vy) ^ 2))
          + -(vy / Real.sqrt (vx ^ 2 + vy ^ 2))
            * ((oy - vy) / Real.sqrt ((ox - vx) ^ 2 + (oy - vy) ^ 2))) (-1) 1))
      linarith
    · unfold illuminated_fraction_of
      have := Real.cos_le_one (Real.arccos (clip
        (-(vx / Real.sqrt (vx ^ 2 + vy ^ 2))
            * ((ox - vx) / Real.sqrt ((ox - vx) ^ 2 + (oy - vy) ^ 2))
          + -(vy / Real.sqrt (vx ^ 2 + vy ^ 2))
            * ((oy - vy) / Real.sqrt ((ox - vx) ^ 2 + (oy - vy) ^ 2))) (-1) 1))
      linarith
  · unfold illuminated_fraction_of
    rw [Real.cos_zero]; norm_num
  · unfold illuminated_fraction_of
    rw [Real.cos_pi]; norm_num
  · intro a ha b hb hab
    unfold illuminated_fraction_of
    have := Real.strictAntiOn_cos ha hb hab
    linarith

/-- Witness for C3 at the configuration observer (1, 0), Venus (0, 0.72). -/
theorem phase_and_illumination_bounds_witness :
    ¬((0 : ℝ) = 0 ∧ (0.72 : ℝ) = 0) ∧ ¬((1 : ℝ) = 0 ∧ (0 : ℝ) = 0.72)
    ∧ ((∃ θ, (calculate_venus_parameters 1 0 0 0.72).phase_angle = FVal.fin θ
        ∧ 0 ≤ θ ∧ θ ≤ Real.pi
        ∧ (calculate_venus_parameters 1 0 0 0.72).illuminated_fraction
            = FVal.fin (illuminated_fraction_of θ)
        ∧ 0 ≤ illuminated_fraction_of θ ∧ illuminated_fraction_of θ ≤ 1)
      ∧ illuminated_fraction_of 0 = 1
      ∧ illuminated_fraction_of Real.pi = 0
      ∧ StrictAntiOn illuminated_fraction_of (Set.Icc 0 Real.pi)) :=
  ⟨by norm_num, by norm_num,
    phase_and_illumination_bounds 1 0 0 0.72 (by norm_num) (by norm_num)⟩

/-- C5: for non-degenerate inputs with a finite illuminated fraction i,
the apparent magnitude is exactly -4.0 + 2.5 * log10(d ^ 2 / i) whenever
i is nonzero, and is positive infinity (not NaN, and no exception) when
i = 0. -/
theorem apparent_magnitude_formula (ox oy vx vy : ℝ)
    (hsv : ¬(vx = 0 ∧ vy = 0)) (hov : ¬(ox = vx ∧ oy = vy)) (i : ℝ)
    (hi : (calculate_venus_parameters ox oy vx vy).illuminated_fraction = FVal.fin i) :
    (i ≠ 0 → (calculate_venus_parameters ox oy vx vy).apparent_magnitude
        = FVal.fin (-4.0 + 2.5 * Real.logb 10
            ((calculate_venus_parameters ox oy vx vy).distance_observer_venus ^ 2 / i)))
    ∧ (i = 0 → (calculate_venus_parameters ox oy vx vy).apparent_magnitude
        = FVal.pinf) := by
  have h1 := dsv_ne_zero vx vy hsv
  have h2 := dov_ne_zero ox oy vx vy hov
  have hcond : ¬(Real.sqrt (vx ^ 2 + vy ^ 2) = 0
      ∨ Real.sqrt ((ox - vx) ^ 2 + (oy - vy) ^ 2) = 0) := by
    push_neg; exact ⟨h1, h2⟩
  simp only [calculate_venus_parameters] at hi ⊢
  rw [if_neg hcond] at hi
  rw [FVal.fin.injEq] at hi
  rw [if_neg hcond, hi]
  constructor
  · intro hne
    rw [if_neg hne]
  · intro h0
    rw [if_pos h0]

/-- At observer (2, 0) and Venus (1, 0) the planet sits between the star
and the observer: the phase angle is pi and the illuminated fraction is
exactly 0. -/
lemma illum_at_new_phase :
    (calculate_venus_parameters 2 0 1 0).illuminated_fraction = FVal.fin 0 := by
  have h1 : Real.sqrt ((1 : ℝ) ^ 2 + 0 ^ 2) = 1 := by
    rw [show ((1 : ℝ) ^ 2 + 0 ^ 2) = 1 by norm_num, Real.sqrt_one]
  have h2 : Real.sqrt (((2 : ℝ) - 1) ^ 2 + ((0 : ℝ) - 0) ^ 2) = 1 := by
    rw [show (((2 : ℝ) - 1) ^ 2 + ((0 : ℝ) - 0) ^ 2) = 1 by norm_num, Real.sqrt_one]
  simp only [calculate_venus_parameters, h1, h2]
  norm_num [clip, min_def, max_def, Real.arccos_neg_one, illuminated_fraction_of,
    Real.cos_pi]

/-- Witness for C5 at observer (2, 0), Venus (1, 0), where the phase is pi
and the illuminated fraction is exactly 0: the magnitude is positive
infinity. -/
theorem apparent_magnitude_formula_witness :
    ¬((1 : ℝ) = 0 ∧ (0 : ℝ) = 0) ∧ ¬((2 : ℝ) = 1 ∧ (0 : ℝ) = 0)
    ∧ (calculate_venus_parameters 2 0 1 0).illuminated_fraction = FVal.fin 0
    ∧ (calculate_venus_parameters 2 0 1 0).apparent_magnitude = FVal.pinf :=
  ⟨by norm_num, by norm_num, illum_at_new_phase,
    (apparent_magnitude_formula 2 0 1 0 (by norm_num) (by norm_num) 0
      illum_at_new_phase).2 rfl⟩

/-- C8: for every non-degenerate input the angular diameter is exactly
2 * arctan(0.006051 / d) with d the observer-planet distance the record
itself carries: the planet physical radius constant is the fixed literal
0.006051 of the source and does not vary with any input. -/
theorem angular_diameter_formula (ox oy vx vy : ℝ)
    (hov : ¬(ox = vx ∧ oy = vy)) :
    (calculate_venus_parameters ox oy vx vy).angular_diameter
      = FVal.fin (2 * Real.arctan (0.006051 /
          (calculate_venus_parameters ox oy vx vy).distance_observer_venus)) := by
  have h2 := dov_ne_zero ox oy vx vy hov
  simp [calculate_venus_parameters, h2]

/-- Witness for C8 at observer (1, 0), Venus (0, 0.72). -/
theorem angular_diameter_formula_witness :
    ¬((1 : ℝ) = 0 ∧ (0 : ℝ) = 0.72)
    ∧ (calculate_venus_parameters 1 0 0 0.72).angular_diameter
        = FVal.fin (2 * Real.arctan (0.006051 /
            (calculate_venus_parameters 1 0 0 0.72).distance_observer_venus)) :=
  ⟨by norm_num, angular_diameter_formula 1 0 0 0.72 (by norm_num)⟩

/-- Rotating both input points around the origin by a common rotation
matrix with cos c and sin s leaves every field of
calculate_venus_parameters unchanged: all intermediate quantities are
norms and dot products, which the rotation preserves. -/
lemma venus_params_rot (c s ox oy vx vy : ℝ) (h : c ^ 2 + s ^ 2 = 1) :
    calculate_venus_parameters (c * ox - s * oy) (s * ox + c * oy)
        (c * vx - s * vy) (s * vx + c * vy)
      = calculate_venus_parameters ox oy vx vy := by
  have hA : ((c * ox - s * oy) - (c * vx - s * vy)) ^ 2
        + ((s * ox + c * oy) - (s * vx + c * vy)) ^ 2
      = (ox - vx) ^ 2 + (oy - vy) ^ 2 := by
    linear_combination ((ox - vx) ^ 2 + (oy - vy) ^ 2) * h
  have hB : (c * vx - s * vy) ^ 2 + (s * vx + c * vy) ^ 2 = vx ^ 2 + vy ^ 2 := by
    linear_combination (vx ^ 2 + vy ^ 2) * h
  have hC : (c * ox - s * oy) ^ 2 + (s * ox + c * oy) ^ 2 = ox ^ 2 + oy ^ 2 := by
    linear_combination (ox ^ 2 + oy ^ 2) * h
  simp only [calculate_venus_parameters]
  rw [hA, hB, hC]
  have hdp : -((c * vx - s * vy) / Real.sqrt (vx ^ 2 + vy ^ 2))
        * (((c * ox - s * oy) - (c * vx - s * vy))
            / Real.sqrt ((ox - vx) ^ 2 + (oy - vy) ^ 2))
      + -((s * vx + c * vy) / Real.sqrt (vx ^ 2 + vy ^ 2))
        * (((s * ox + c * oy) - (s * vx + c * vy))
            / Real.sqrt ((ox - vx) ^ 2 + (oy - vy) ^ 2))
      = -(vx / Real.sqrt (vx ^ 2 + vy ^ 2))
          * ((ox - vx) / Real.sqrt ((ox - vx) ^ 2 + (oy - vy) ^ 2))
        + -(vy / Real.sqrt (vx ^ 2 + vy ^ 2))
          * ((oy - vy) / Real.sqrt ((ox - vx) ^ 2 + (oy - vy) ^ 2)) := by
    linear_combination ((-(vx * (ox - vx)) - vy * (oy - vy))
      / (Real.sqrt (vx ^ 2 + vy ^ 2)
          * Real.sqrt ((ox - vx) ^ 2 + (oy - vy) ^ 2))) * h
  have hecos : ((c * ox - s * oy) / Real.sqrt (ox ^ 2 + oy ^ 2))
        * (((c * vx - s * vy) - (c * ox - s * oy))
            / Real.sqrt ((ox - vx) ^ 2 + (oy - vy) ^ 2))
      + ((s * ox + c * oy) / Real.sqrt (ox ^ 2 + oy ^ 2))
        * (((s * vx + c * vy) - (s * ox + c * oy))
            / Real.sqrt ((ox - vx) ^ 2 + (oy - vy) ^ 2))
      = (ox / Real.sqrt (ox ^ 2 + oy ^ 2))
          * ((vx - ox) / Real.sqrt ((ox - vx) ^ 2 + (oy - vy) ^ 2))
        + (oy / Real.sqrt (ox ^ 2 + oy ^ 2))
          * ((vy - oy) / Real.sqrt ((ox - vx) ^ 2 + (oy - vy) ^ 2)) := by
    linear_combination ((ox * (vx - ox) + oy * (vy - oy))
      / (Real.sqrt (ox ^ 2 + oy ^ 2)
          * Real.sqrt ((ox - vx) ^ 2 + (oy - vy) ^ 2))) * h
  rw [hdp, hecos]

/-- C6: applying the same angular offset to the observer angle and the
planet angle, radii unchanged, leaves the whole derived parameter record
of the pipeline calculate_positions followed by
calculate_venus_parameters unchanged: the phase angle, elongation,
angular diameter, magnitude and all distances are rotation invariant. -/
theorem rotational_invariance (ro ao rv av δ : ℝ) :
    venusParamsOfPositions (calculate_positions ⟨ro, ao + δ⟩ ⟨rv, av + δ⟩)
      = venusParamsOfPositions (calculate_positions ⟨ro, ao⟩ ⟨rv, av⟩) := by
  have hrad : ∀ x y : ℝ, radians (x + y) = radians x + radians y := by
    intro x y; unfold radians; ring
  simp only [venusParamsOfPositions, calculate_positions, hrad]
  have e1 : ro * Real.cos (radians ao + radians δ)
      = Real.cos (radians δ) * (ro * Real.cos (radians ao))
        - Real.sin (radians δ) * (ro * Real.sin (radians ao)) := by
    rw [Real.cos_add]; ring
  have e2 : ro * Real.sin (radians ao + radians δ)
      = Real.sin (radians δ) * (ro * Real.cos (radians ao))
        + Real.cos (radians δ) * (ro * Real.sin (radians ao)) := by
    rw [Real.sin_add]; ring
  have e3 : rv * Real.cos (radians av + radians δ)
      = Real.cos (radians δ) * (rv * Real.cos (radians av))
        - Real.sin (radians δ) * (rv * Real.sin (radians av)) := by
    rw [Real.cos_add]; ring
  have e4 : rv * Real.sin (radians av + radians δ)
      = Real.sin (radians δ) * (rv * Real.cos (radians av))
        + Real.cos (radians δ) * (rv * Real.sin (radians av)) := by
    rw [Real.sin_add]; ring
  rw [e1, e2, e3, e4]
  exact venus_params_rot (Real.cos (radians δ)) (Real.sin (radians δ))
    (ro * Real.cos (radians ao)) (ro * Real.sin (radians ao))
    (rv * Real.cos (radians av)) (rv * Real.sin (radians av))
    (Real.cos_sq_add_sin_sq (radians δ))

/-- At observer (1, 0) and Venus (1/2, 0) the planet sits between the star
and the observer on the positive x axis; the dot product defining the
phase angle evaluates to -1 and the phase angle is pi. -/
lemma phase_at_collinear :
    (calculate_venus_parameters 1 0 (1/2) 0).phase_angle = FVal.fin Real.pi := by
  have hsv : Real.sqrt (((1 : ℝ)/2) ^ 2 + 0 ^ 2) = 1/2 := by
    rw [show (((1 : ℝ)/2) ^ 2 + 0 ^ 2) = (1/2) ^ 2 by norm_num,
      Real.sqrt_sq (by norm_num)]
  have hov : Real.sqrt (((1 : ℝ) - 1/2) ^ 2 + ((0 : ℝ) - 0) ^ 2) = 1/2 := by
    rw [show (((1 : ℝ) - 1/2) ^ 2 + ((0 : ℝ) - 0) ^ 2) = (1/2) ^ 2 by norm_num,
      Real.sqrt_sq (by norm_num)]
  simp only [calculate_venus_parameters, hsv, hov]
  norm_num [clip, min_def, max_def, Real.arccos_neg_one]

/-- At observer (1, 0) and Venus (1/2, 0) the elongation dot product of the
source, taken between the sun-to-observer unit vector and the
observer-to-Venus unit vector, evaluates to -1, so the source elongation
is pi. -/
lemma elong_at_collinear :
    (calculate_venus_parameters 1 0 (1/2) 0).elongation = FVal.fin Real.pi := by
  have hso : Real.sqrt ((1 : ℝ) ^ 2 + 0 ^ 2) = 1 := by
    rw [show ((1 : ℝ) ^ 2 + 0 ^ 2) = 1 by norm_num, Real.sqrt_one]
  have hov : Real.sqrt (((1 : ℝ) - 1/2) ^ 2 + ((0 : ℝ) - 0) ^ 2) = 1/2 := by
    rw [show (((1 : ℝ) - 1/2) ^ 2 + ((0 : ℝ) - 0) ^ 2) = (1/2) ^ 2 by norm_num,
      Real.sqrt_sq (by norm_num)]
  simp only [calculate_venus_parameters, hso, hov]
  norm_num [clip, min_def, max_def, Real.arccos_neg_one]

/-- At observer (1, 0) and Venus (1/2, 0) the star and the planet lie in
exactly the same direction from the observer, so the spec angular
separation is 0. -/
lemma sep_at_collinear : spec_angular_separation 1 0 (1/2) 0 = 0 := by
  have hso : Real.sqrt ((1 : ℝ) ^ 2 + 0 ^ 2) = 1 := by
    rw [show ((1 : ℝ) ^ 2 + 0 ^ 2) = 1 by norm_num, Real.sqrt_one]
  have hvo : Real.sqrt (((1 : ℝ)/2 - 1) ^ 2 + ((0 : ℝ) - 0) ^ 2) = 1/2 := by
    rw [show (((1 : ℝ)/2 - 1) ^ 2 + ((0 : ℝ) - 0) ^ 2) = (1/2) ^ 2 by norm_num,
      Real.sqrt_sq (by norm_num)]
  unfold spec_angular_separation
  rw [hso, hvo]
  norm_num [clip, min_def, max_def, Real.arccos_one]

/-- C10: at the pairwise-distinct configuration star (0,0),
Venus (1/2, 0), observer (1, 0) the source returns phase angle pi and
elongation pi, whose sum 2 pi strictly exceeds pi: the interior-angle
bound fails because the source computes the elongation from the
sun-to-observer direction instead of the observer-to-sun direction. -/
theorem phase_plus_elongation_exceeds_pi :
    (calculate_venus_parameters 1 0 (1/2) 0).phase_angle = FVal.fin Real.pi
    ∧ (calculate_venus_parameters 1 0 (1/2) 0).elongation = FVal.fin Real.pi
    ∧ Real.pi < Real.pi + Real.pi :=
  ⟨phase_at_collinear, elong_at_collinear, by linarith [Real.pi_pos]⟩

/-- C7 counterexample: at observer (1, 0) and Venus (1/2, 0) the source
elongation is pi although the angular separation between the star and the
planet as seen from the observer is 0, so the elongation the source
computes is not that angular separation. -/
theorem elongation_gloss_refuted :
    (calculate_venus_parameters 1 0 (1/2) 0).elongation = FVal.fin Real.pi
    ∧ spec_angular_separation 1 0 (1/2) 0 = 0
    ∧ Real.pi ≠ 0 :=
  ⟨elong_at_collinear, sep_at_collinear, Real.pi_ne_zero⟩

/-- C7 amended: for every non-degenerate input the elongation is exactly
arccos of the clipped dot product of the sun-to-observer unit vector with
the observer-to-planet unit vector, as the source writes it, and lies in
[0, pi]; this quantity equals pi minus the angular separation between the
star and the planet as seen from the observer, not the separation
itself. -/
theorem elongation_formula_range (ox oy vx vy : ℝ)
    (hso : ¬(ox = 0 ∧ oy = 0)) (hov : ¬(ox = vx ∧ oy = vy)) :
    ∃ E, (calculate_venus_parameters ox oy vx vy).elongation = FVal.fin E
      ∧ E = Real.arccos (clip
          ((ox / Real.sqrt (ox ^ 2 + oy ^ 2))
              * ((vx - ox) / Real.sqrt ((ox - vx) ^ 2 + (oy - vy) ^ 2))
            + (oy / Real.sqrt (ox ^ 2 + oy ^ 2))
              * ((vy - oy) / Real.sqrt ((ox - vx) ^ 2 + (oy - vy) ^ 2))) (-1) 1)
      ∧ 0 ≤ E ∧ E ≤ Real.pi
      ∧ E = Real.pi - spec_angular_separation ox oy vx vy := by
  refine ⟨Real.arccos (clip
      ((ox / Real.sqrt (ox ^ 2 + oy ^ 2))
          * ((vx - ox) / Real.sqrt ((ox - vx) ^ 2 + (oy - vy) ^ 2))
        + (oy / Real.sqrt (ox ^ 2 + oy ^ 2))
          * ((vy - oy) / Real.sqrt ((ox - vx) ^ 2 + (oy - vy) ^ 2))) (-1) 1),
    ?_, rfl, Real.arccos_nonneg _, Real.arccos_le_pi _, ?_⟩
  · simp [calculate_venus_parameters, dso_ne_zero ox oy hso,
      dov_ne_zero ox oy vx vy hov]
  · unfold spec_angular_separation
    have hsq : ((vx - ox) ^ 2 + (vy - oy) ^ 2 : ℝ)
        = (ox - vx) ^ 2 + (oy - vy) ^ 2 := by ring
    rw [hsq]
    have harg : -ox / Real.sqrt (ox ^ 2 + oy ^ 2)
          * ((vx - ox) / Real.sqrt ((ox - vx) ^ 2 + (oy - vy) ^ 2))
        + -oy / Real.sqrt (ox ^ 2 + oy ^ 2)
          * ((vy - oy) / Real.sqrt ((ox - vx) ^ 2 + (oy - vy) ^ 2))
        = -((ox / Real.sqrt (ox ^ 2 + oy ^ 2))
            * ((vx - ox) / Real.sqrt ((ox - vx) ^ 2 + (oy - vy) ^ 2))
          + (oy / Real.sqrt (ox ^ 2 + oy ^ 2))
            * ((vy - oy) / Real.sqrt ((ox - vx) ^ 2 + (oy - vy) ^ 2))) := by
      ring
    rw [harg, clip_neg_neg_one_one, Real.arccos_neg]
    ring

/-- Witness for C7 at observer (1, 0), Venus (0, 0.72). -/
theorem elongation_formula_range_witness :
    ¬((1 : ℝ) = 0 ∧ (0 : ℝ) = 0) ∧ ¬((1 : ℝ) = 0 ∧ (0 : ℝ) = 0.72)
    ∧ (∃ E, (calculate_venus_parameters 1 0 0 0.72).elongation = FVal.fin E
      ∧ E = Real.arccos (clip
          (((1 : ℝ) / Real.sqrt (1 ^ 2 + 0 ^ 2))
              * ((0 - 1) / Real.sqrt ((1 - 0) ^ 2 + (0 - 0.72) ^ 2))
            + ((0 : ℝ) / Real.sqrt (1 ^ 2 + 0 ^ 2))
              * ((0.72 - 0) / Real.sqrt ((1 - 0) ^ 2 + (0 - 0.72) ^ 2))) (-1) 1)
      ∧ 0 ≤ E ∧ E ≤ Real.pi
      ∧ E = Real.pi - spec_angular_separation 1 0 0 0.72) :=
  ⟨by norm_num, by norm_num,
    elongation_formula_range 1 0 0 0.72 (by norm_num) (by norm_num)⟩
